import Mathlib

/-!
Verification development for the IT-trends report bot.

Shallow embedding of the core orchestration code:
  * `src/services/report_service.py` — result normalizer (`_unwrap_tool_result`),
    retried tool calls (`_call_tool_with_retries`), analysis with stub fallback
    (`_analyze_trends`), report generation with path vetting (`_generate_report`),
    and the orchestrator (`create_report`).
  * `src/services/mcp_client.py` — the raw HTTP retry loop (`_request`).
  * `src/services/scheduler.py` — the job table and `execute_scheduled_analysis`.

Python values flowing through the normalizer are modelled by a JSON-like value
type `JVal` plus a `ToolResult` type covering the shapes `_unwrap_tool_result`
distinguishes (dict / str / list, the CallToolResult envelope, and bare objects).
Library calls (`json.loads`, `json.dumps`, `str`) are passed in as function
parameters; the filesystem, database, and network are oracle functions in an
environment record, with exceptions modelled by `Except`.
-/

/-- JSON-like Python value (dicts as association lists, matching unique-key
Python dicts). -/
inductive JVal where
  | str (s : String)
  | num (n : Int)
  | bool (b : Bool)
  | arr (l : List JVal)
  | obj (fields : List (String × JVal))

/-- Python `dict.get(k)`: first binding of `k`, if any. -/
def dictGet (d : List (String × JVal)) (k : String) : Option JVal :=
  (d.find? (fun kv => kv.1 == k)).map (fun kv => kv.2)

/-- Python truthiness for `JVal` ("" , 0, False, [], {} are falsy). -/
def pyTruthy : JVal → Bool
  | .str s => !(s == "")
  | .num n => !(n == 0)
  | .bool b => b
  | .arr l => !l.isEmpty
  | .obj d => !d.isEmpty

/-- A `data` attribute value that is a non-dict object, with the conversion
conventions `_unwrap_tool_result` probes: `model_dump()` (pydantic v2),
`.dict()` (pydantic v1) — each either absent, raising, or returning a dict —
and the instance attribute table `__dict__`.  `hasattr(data, "__dict")`
(the literal probe in the source, line 49) holds iff the attribute table has a
key `"__dict"`. -/
structure DataObj where
  modelDump : Option (Except Unit (List (String × JVal)))
  dictMethod : Option (Except Unit (List (String × JVal)))
  attrTable : List (String × JVal)

/-- The value of a CallToolResult's `data` attribute. -/
inductive DataField where
  | dict (d : List (String × JVal))
  | obj (o : DataObj)
  | prim (v : JVal)

/-- One entry of a CallToolResult `content` list; `text` is its `.text`
attribute when that is a string. -/
structure Block where
  text : Option String

/-- The CallToolResult envelope: `data`, `structured_content`, `content`
attributes, each possibly `None`. -/
structure CallToolRes where
  data : Option DataField
  structuredContent : Option JVal
  content : Option (List Block)

/-- A value returned by `fastmcp` `call_tool`, as `_unwrap_tool_result`
distinguishes them: an already-basic dict / str / list, another primitive,
the CallToolResult envelope, or a bare data object (no `data`,
`structured_content` or `content` attribute). -/
inductive ToolResult where
  | pdict (d : List (String × JVal))
  | pstr (s : String)
  | plist (l : List JVal)
  | pnum (n : Int)
  | pbool (b : Bool)
  | res (r : CallToolRes)
  | dataObj (o : DataObj)

/-- Reinjects a JSON value (e.g. `structured_content`, or a parsed text
block) as the Python value it is. -/
def jvalToToolResult : JVal → ToolResult
  | .obj d => .pdict d
  | .str s => .pstr s
  | .arr l => .plist l
  | .num n => .pnum n
  | .bool b => .pbool b

/-- `ReportService._unwrap_tool_result` (report_service.py lines 26-76).
`jsonLoads` stands for `json.loads` restricted to success/failure.
Order of the source: basic types unchanged; else prefer `data`
(dict / `model_dump` / `.dict()` / — only under `hasattr(data, "__dict")` —
the attribute table, a raising conversion falling back to the raw object);
else `structured_content` as-is; else join the string text blocks of
`content` and try to parse them; else the result unchanged. -/
def unwrapToolResult (jsonLoads : String → Option JVal) : ToolResult → ToolResult
  | .pdict d => .pdict d
  | .pstr s => .pstr s
  | .plist l => .plist l
  | .pnum n => .pnum n
  | .pbool b => .pbool b
  | .dataObj o => .dataObj o
  | .res r =>
    match r.data with
    | some (.dict d) => .pdict d
    | some (.prim v) => jvalToToolResult v
    | some (.obj o) =>
      match o.modelDump with
      | some (.ok d) => .pdict d
      | some (.error _) => .dataObj o
      | none =>
        match o.dictMethod with
        | some (.ok d) => .pdict d
        | some (.error _) => .dataObj o
        | none =>
          if o.attrTable.any (fun kv => kv.1 == "__dict") then .pdict o.attrTable
          else .dataObj o
    | none =>
      match r.structuredContent with
      | some v => jvalToToolResult v
      | none =>
        match r.content with
        | some blocks =>
          if blocks.isEmpty then .res r
          else
            let texts := blocks.filterMap (fun b => b.text)
            if texts.isEmpty then .res r
            else
              let combined := String.intercalate "\n" texts
              match jsonLoads combined with
              | some v => jvalToToolResult v
              | none => .pstr combined
        | none => .res r

/-! ### Retry loops -/

/-- Loop body of `ReportService._call_tool_with_retries` (report_service.py
lines 104-121).  `fuel` is the number of loop iterations still allowed
(`3 - attempt`, so `attempt < 3` iff `fuel > 0`); `outcome i` is what
`self.mcp.call_tool` does on the attempt with counter value `i`.  Each
failure sets `last_exc`, increments `attempt` and sleeps `2 * attempt`
time-units (also after the final failed attempt, as in the source).  On
exhaustion the last exception is re-raised (`.ok none` models the
unreachable implicit `return None` when no exception was recorded).
Returns the call result and the ordered list of sleep durations. -/
def callToolRetryGo {ε α : Type} (outcome : Nat → Except ε α) :
    Nat → Nat → Option ε → List Nat → Except ε (Option α) × List Nat
  | 0, _, lastExc, sleeps =>
    (match lastExc with
     | some e => .error e
     | none => .ok none, sleeps)
  | fuel + 1, attempt, _, sleeps =>
    match outcome attempt with
    | .ok v => (.ok (some v), sleeps)
    | .error e => callToolRetryGo outcome fuel (attempt + 1) (some e) (sleeps ++ [2 * (attempt + 1)])

/-- `ReportService._call_tool_with_retries`: three attempts, base delay 2. -/
def callToolWithRetries {ε α : Type} (outcome : Nat → Except ε α) :
    Except ε (Option α) × List Nat :=
  callToolRetryGo outcome 3 0 none []

/-- Loop body of `MCPClient._request` (mcp_client.py lines 29-65).  As above,
but after the final failed attempt the loop breaks *before* sleeping and the
last exception is raised; a failure with attempts remaining sleeps
`retry_delay * attempt`. -/
def mcpRequestGo {ε α : Type} (retryAttempts retryDelay : Nat) (outcome : Nat → Except ε α) :
    Nat → Nat → Option ε → List Nat → Except ε (Option α) × List Nat
  | 0, _, lastExc, sleeps =>
    (match lastExc with
     | some e => .error e
     | none => .ok none, sleeps)
  | fuel + 1, attempt, _, sleeps =>
    match outcome attempt with
    | .ok v => (.ok (some v), sleeps)
    | .error e =>
      if attempt + 1 ≥ retryAttempts then (.error e, sleeps)
      else mcpRequestGo retryAttempts retryDelay outcome fuel (attempt + 1) (some e)
        (sleeps ++ [retryDelay * (attempt + 1)])

/-- `MCPClient._request` retry behaviour for configured `retry_attempts` and
`retry_delay` (defaults 3 and 5). -/
def mcpRequest {ε α : Type} (retryAttempts retryDelay : Nat) (outcome : Nat → Except ε α) :
    Except ε (Option α) × List Nat :=
  mcpRequestGo retryAttempts retryDelay outcome retryAttempts 0 none []

/-! ### Analysis with stub fallback -/

/-- The candidate analysis tool names, in source order (report_service.py
lines 124-128). -/
def analyzeCandidates : List String := ["analyze_trends", "analyze", "trends_analyze"]

/-- Default `sources` used by the stub when the params carry none. -/
def stubSourcesDefault : JVal :=
  .obj [("reddit", .bool true), ("freelance", .bool true), ("trends", .bool true)]

/-- The fallback stub document of `_analyze_trends` (report_service.py
lines 151-157): `params.get("date") or "today"`, the literal trend lists,
`params.get("sources", defaults)` echoed back, and the fixed summary. -/
def stubDoc (params : List (String × JVal)) : List (String × JVal) :=
  [("date",
    match dictGet params "date" with
    | some v => if pyTruthy v then v else .str "today"
    | none => .str "today"),
   ("top_trends", .arr [.str "AI Agents", .str "Rust", .str "Kotlin Multiplatform"]),
   ("growth_leaders", .arr [.str "LangChain", .str "WebGPU", .str "Bun"]),
   ("sources", (dictGet params "sources").getD stubSourcesDefault),
   ("summary", .str "Stub analysis due to MCP server unavailability.")]

/-- The candidate loop of `_analyze_trends` (report_service.py lines 129-148):
for each tool name, a failing retried call is caught and skipped; a result
unwrapping to a dict is returned; a string parsing (via `json.loads`) to a
dict is returned; anything else moves on.  Exhaustion yields the stub. -/
def analyzeTry {ε : Type} (jsonLoads : String → Option JVal)
    (callTool : String → Except ε ToolResult) (params : List (String × JVal)) :
    List String → List (String × JVal)
  | [] => stubDoc params
  | name :: rest =>
    match callTool name with
    | .error _ => analyzeTry jsonLoads callTool params rest
    | .ok r =>
      match unwrapToolResult jsonLoads r with
      | .pdict d => d
      | .pstr s =>
        match jsonLoads s with
        | some (.obj d) => d
        | _ => analyzeTry jsonLoads callTool params rest
      | _ => analyzeTry jsonLoads callTool params rest

/-- `ReportService._analyze_trends` (report_service.py lines 123-157).
Total: it never raises to its caller. -/
def analyzeTrends {ε : Type} (jsonLoads : String → Option JVal)
    (callTool : String → Except ε ToolResult) (params : List (String × JVal)) :
    List (String × JVal) :=
  analyzeTry jsonLoads callTool params analyzeCandidates

/-! ### Report generation with path vetting -/

/-- The candidate generation tool names, in source order (report_service.py
lines 161-165). -/
def generateCandidates : List String := ["generate_report", "report_generate", "create_report"]

/-- The accepted path keys, in source order (report_service.py line 174). -/
def pathKeys : List String := ["file_path", "path", "filepath"]

/-- Path extraction from a dict result: the first of the accepted keys that
is present with a truthy value, rendered through `str` (`pyStr`). -/
def extractPath (pyStr : JVal → String) (d : List (String × JVal)) : Option String :=
  match pathKeys.find? (fun k =>
      match dictGet d k with
      | some v => pyTruthy v
      | none => false) with
  | some k => (dictGet d k).map pyStr
  | none => none

/-- The candidate loop of `_generate_report` (report_service.py lines
166-206): a failing retried call is caught and skipped; a dict result yields
a path via the accepted keys; a string result is taken verbatim when it names
an existing file, else parsed as JSON and mined for the same keys.  A truthy
candidate path is accepted only when `os.path.getsize` succeeds with a
positive size (`getSize` returns `none` when stat raises); otherwise the next
candidate is tried.  Exhaustion returns `""`.  `candidateOf` is the
path-extraction step of one loop iteration. -/
def candidateOf (jsonLoads : String → Option JVal) (pyStr : JVal → String)
    (osExists : String → Bool) : ToolResult → Option String
  | .pdict d => extractPath pyStr d
  | .pstr s =>
    if osExists s then some s
    else
      match jsonLoads s with
      | some (.obj d) => extractPath pyStr d
      | _ => none
  | _ => none

def generateTry {ε : Type} (jsonLoads : String → Option JVal) (pyStr : JVal → String)
    (callTool : String → Except ε ToolResult) (osExists : String → Bool)
    (getSize : String → Option Nat) : List String → String
  | [] => ""
  | name :: rest =>
    match callTool name with
    | .error _ => generateTry jsonLoads pyStr callTool osExists getSize rest
    | .ok r =>
      match candidateOf jsonLoads pyStr osExists (unwrapToolResult jsonLoads r) with
      | some p =>
        if p == "" then generateTry jsonLoads pyStr callTool osExists getSize rest
        else
          match getSize p with
          | some sz =>
            if 0 < sz then p
            else generateTry jsonLoads pyStr callTool osExists getSize rest
          | none => generateTry jsonLoads pyStr callTool osExists getSize rest
      | none => generateTry jsonLoads pyStr callTool osExists getSize rest

/-! ### The orchestrator `create_report` -/

/-- The fields of `UserSettings` read by `create_report`
(database/repository.py lines 86-93); `report_format` may be null/empty. -/
structure Settings where
  reportFormat : Option String
  analysisDays : Int
  sources : List (String × Bool)
  includeCharts : Bool
  language : String

/-- The `params` mapping handed to `create_report`: each key either absent
(fall back to the persisted settings) or present with a value. -/
structure CParams where
  format : Option String
  days : Option JVal
  sources : Option JVal
  includeCharts : Option JVal
  language : Option JVal

/-- A persisted `Report` row as written by `save_report`
(database/repository.py lines 100-121). -/
structure ReportRecord where
  userId : Int
  channelId : Option Int
  filePath : String
  format : String
  dataJson : List (String × JVal)
  status : String

/-- Effect state of one `create_report` call: files written locally
(path, content) and records persisted via `save_report`, both initially
empty. -/
structure RState where
  files : List (String × String)
  records : List ReportRecord

/-- Environment of one `create_report` call: the library functions
(`json.loads`, `str`, `json.dumps`), the retried tool-call oracles for the
analysis and generation phases (each `Except` value is the outcome of
`_call_tool_with_retries` for that tool name), the filesystem oracles, the
outcome of the local fallback file write and of `save_report`, the user's
persisted settings, the storage root and the current timestamp. -/
structure REnv (ε : Type) where
  jsonLoads : String → Option JVal
  pyStr : JVal → String
  dumps : List (String × JVal) → String
  callToolA : String → Except ε ToolResult
  callToolG : String → Except ε ToolResult
  osExists : String → Bool
  getSize : String → Option Nat
  writeRes : Except ε Unit
  saveRes : Except ε Unit
  settings : Settings
  storagePath : String
  now : Nat

/-- Python `a or b` for an optional, possibly-empty string (`None` and `""`
are falsy). -/
def pyOrOpt (a : Option String) (b : String) : String :=
  match a with
  | none => b
  | some s => if s == "" then b else s

/-- Python `fmt or "pdf"` on a plain string. -/
def pyOrS (a b : String) : String :=
  if a == "" then b else a

/-- `settings.sources.get(name, True)` (report_service.py lines 216-218). -/
def sourceToggle (srcs : List (String × Bool)) (k : String) : Bool :=
  match srcs.find? (fun kv => kv.1 == k) with
  | some kv => kv.2
  | none => true

/-- The format resolution of `create_report` (report_service.py line 210):
`params.get("format") or settings.report_format or "pdf"`. -/
def computedFmt (p : CParams) (st : Settings) : String :=
  pyOrOpt p.format (pyOrOpt st.reportFormat "pdf")

/-- The analysis-params dict built by `create_report` (report_service.py
lines 211-223): caller overrides win, absent keys fall to the persisted
settings. -/
def analysisParams (p : CParams) (st : Settings) : List (String × JVal) :=
  [("days", p.days.getD (.num st.analysisDays)),
   ("sources", p.sources.getD (.obj
     [("reddit", .bool (sourceToggle st.sources "reddit")),
      ("freelance", .bool (sourceToggle st.sources "freelance")),
      ("trends", .bool (sourceToggle st.sources "trends"))])),
   ("include_charts", p.includeCharts.getD (.bool st.includeCharts)),
   ("language", p.language.getD (.str st.language))]

/-- The content of the local fallback file (report_service.py lines 236-241):
an HTML wrapper embedding the JSON dump in a `<pre>` block, or the plain-text
header followed by the JSON dump. -/
def fallbackContent (dumps : List (String × JVal) → String)
    (data : List (String × JVal)) (ext : String) : String :=
  if ext == "html" then
    "<html><body><h1>IT Trends Report</h1><pre>" ++ dumps data ++ "</pre></body></html>"
  else
    "IT Trends Report\n\n" ++ dumps data

/-- The analysis document computed by `create_report` for a given call. -/
def analysisOf {ε : Type} (env : REnv ε) (p : CParams) : List (String × JVal) :=
  analyzeTrends env.jsonLoads env.callToolA (analysisParams p env.settings)

/-- The path returned by the `_generate_report` phase of a `create_report`
call (`""` when no remote candidate produced a usable artifact). -/
def generatedPath {ε : Type} (env : REnv ε) : String :=
  generateTry env.jsonLoads env.pyStr env.callToolG env.osExists env.getSize generateCandidates

/-- ASCII lowercase of one character, modelling Python `str.lower` on the
ASCII format names flowing through `create_report`. -/
def lowerChar (c : Char) : Char :=
  if c.isUpper then Char.ofNat (c.toNat + 32) else c

/-- ASCII `str.lower`. -/
def lowerStr (s : String) : String := ⟨s.data.map lowerChar⟩

/-- The fallback extension chosen by `create_report` (report_service.py
lines 229-230): `requested_fmt = (fmt or "pdf").lower()`, then `"html"` when
that is html, else `"txt"`. -/
def fallbackExt (p : CParams) (st : Settings) : String :=
  if lowerStr (pyOrS (computedFmt p st) "pdf") == "html" then "html" else "txt"

/-- The fallback file path of `create_report` (report_service.py lines
233-234): `os.path.join(storage_path, "report_{user}_{timestamp}.{ext}")`. -/
def fallbackPath {ε : Type} (env : REnv ε) (userId : Int) (p : CParams) : String :=
  env.storagePath ++ "/" ++
    ("report_" ++ toString userId ++ "_" ++ toString env.now ++ "." ++ fallbackExt p env.settings)

/-- `ReportService.create_report` (report_service.py lines 208-255).
Resolve the format, run the analysis (total), try remote generation; when it
yields nothing, downgrade to a local `html`/`txt` fallback file — a failing
write propagates — and override the recorded format with the fallback
extension; finally persist one `completed` record — a failing `save_report`
propagates.  Returns the outcome together with the effect state (the local
getsize after a successful write reads back the file just written, so it is
the written content's size). -/
def create_report {ε : Type} (env : REnv ε) (userId : Int) (p : CParams) :
    Except ε (String × List (String × JVal)) × RState :=
  let fmt := computedFmt p env.settings
  let data := analysisOf env p
  let target := generatedPath env
  if target == "" then
    let ext := fallbackExt p env.settings
    let path := fallbackPath env userId p
    match env.writeRes with
    | .error e => (.error e, ⟨[], []⟩)
    | .ok _ =>
      let content := fallbackContent env.dumps data ext
      match env.saveRes with
      | .error e => (.error e, ⟨[(path, content)], []⟩)
      | .ok _ =>
        (.ok (path, data), ⟨[(path, content)], [⟨userId, none, path, ext, data, "completed"⟩]⟩)
  else
    match env.saveRes with
    | .error e => (.error e, ⟨[], []⟩)
    | .ok _ => (.ok (target, data), ⟨[], [⟨userId, none, target, fmt, data, "completed"⟩]⟩)

/-! ### Scheduler -/

/-- `TrendsScheduler` state (scheduler.py lines 14-17): the ids known to the
underlying APScheduler engine, which of them are paused, and the per-user
`jobs_by_user` table. -/
structure Sched where
  engineJobs : List String
  pausedJobs : List String
  jobsByUser : List (Int × List String)

/-- `self.jobs_by_user.get(user_id, [])`. -/
def userJobs (s : Sched) (uid : Int) : List String :=
  match s.jobsByUser.find? (fun kv => kv.1 == uid) with
  | some kv => kv.2
  | none => []

/-- `TrendsScheduler.remove_job` (scheduler.py lines 47-52): removes the id
from the engine — an engine error (unknown id) is logged and swallowed — and
touches nothing else; in particular `jobs_by_user` is not updated. -/
def removeJob (s : Sched) (jobId : String) : Sched :=
  { s with engineJobs := s.engineJobs.erase jobId }

/-- `TrendsScheduler.pause_all` (scheduler.py lines 54-59): iterates the
user's recorded job ids, asking the engine to pause each; an engine error for
an unknown id is swallowed.  Returns the new state and the list of per-id
attempts (`true` = engine pause succeeded).  Pausing never changes the set of
engine-known ids, so each attempt's success is membership in `engineJobs`. -/
def pauseAll (s : Sched) (uid : Int) : Sched × List (String × Bool) :=
  ({ s with pausedJobs :=
      s.pausedJobs ++ (userJobs s uid).filter (fun j => s.engineJobs.contains j) },
   (userJobs s uid).map (fun j => (j, s.engineJobs.contains j)))

/-- `TrendsScheduler.resume_all` (scheduler.py lines 61-66), same shape. -/
def resumeAll (s : Sched) (uid : Int) : Sched × List (String × Bool) :=
  ({ s with pausedJobs :=
      s.pausedJobs.filter (fun j => !((userJobs s uid).contains j && s.engineJobs.contains j)) },
   (userJobs s uid).map (fun j => (j, s.engineJobs.contains j)))

/-- An active channel row as read by `execute_scheduled_analysis`. -/
structure ChannelRec where
  channelId : String
  channelUsername : Option String

/-- Per-step outcomes of one fired `execute_scheduled_analysis` job
(scheduler.py lines 68-88): the started notice, `create_report`, the channel
lookup, the no-channel notice, `publish_to_channel`, the confirmation, and
the generic failure notice sent from the handler. -/
structure ExecEnv (ε : Type) where
  sendStart : Except ε Nat
  createReport : Except ε (String × List (String × JVal))
  getChannel : Except ε (Option ChannelRec)
  sendNoChannel : Except ε Unit
  publish : Except ε Unit
  sendConfirm : Except ε Unit
  sendFailNotice : Except ε Unit

/-- How one fired job ended. -/
inductive ExecNote where
  | published
  | skippedNoChannel
  | failedNotified
  | failedSilent

/-- The `try` body of `execute_scheduled_analysis` (scheduler.py lines
71-82): started notice, report creation, channel lookup; without a channel,
notify and return; else publish and confirm. -/
def execBody {ε : Type} (env : ExecEnv ε) : Except ε ExecNote := do
  let _ ← env.sendStart
  let _ ← env.createReport
  let ch ← env.getChannel
  match ch with
  | none => do
    let _ ← env.sendNoChannel
    pure .skippedNoChannel
  | some _ => do
    let _ ← env.publish
    let _ ← env.sendConfirm
    pure .published

/-- `TrendsScheduler.execute_scheduled_analysis` (scheduler.py lines 68-88):
the whole body runs under `except Exception` — any failure is logged and a
generic failure notice is attempted, itself best-effort.  The function is
total (never propagates) and does not touch the scheduler state, which is
threaded through unchanged. -/
def executeScheduledAnalysis {ε : Type} (env : ExecEnv ε) (s : Sched) : ExecNote × Sched :=
  match execBody env with
  | .ok n => (n, s)
  | .error _ =>
    match env.sendFailNotice with
    | .ok _ => (.failedNotified, s)
    | .error _ => (.failedSilent, s)

/-! ### Theorems -/

/-- C8: the normalizer returns an already-canonical mapping (and likewise a
sequence or plain string) unchanged, so normalizing twice equals normalizing
once on those inputs. -/
theorem unwrap_canonical_idem (jl : String → Option JVal)
    (d : List (String × JVal)) (s : String) (l : List JVal) :
    unwrapToolResult jl (.pdict d) = .pdict d ∧
    unwrapToolResult jl (.pstr s) = .pstr s ∧
    unwrapToolResult jl (.plist l) = .plist l ∧
    unwrapToolResult jl (unwrapToolResult jl (.pdict d)) = unwrapToolResult jl (.pdict d) ∧
    unwrapToolResult jl (unwrapToolResult jl (.pstr s)) = unwrapToolResult jl (.pstr s) ∧
    unwrapToolResult jl (unwrapToolResult jl (.plist l)) = unwrapToolResult jl (.plist l) :=
  ⟨rfl, rfl, rfl, rfl, rfl, rfl⟩

/-- A `data` object with a populated attribute table and none of the
conversion conventions. -/
def attrOnlyData : DataObj := ⟨none, none, [("a", .str "x")]⟩

/-- A CallToolResult whose `data` field is `attrOnlyData`. -/
def attrOnlyInput : ToolResult := .res ⟨some (.obj attrOnlyData), none, none⟩

/-- C7: on a `data` object with no model-dump or dict-conversion convention
but a populated attribute table, the normalizer returns the raw object, not
the mapping of its attributes — because the source probes
`hasattr(data, "__dict")` (line 49) while the body reads `data.__dict__`,
so the attribute-table fallback never fires for an ordinary object. -/
theorem unwrap_attr_table_bug :
    unwrapToolResult (fun _ => none) attrOnlyInput = .dataObj attrOnlyData ∧
    unwrapToolResult (fun _ => none) attrOnlyInput ≠ .pdict [("a", JVal.str "x")] :=
  ⟨rfl, fun h => ToolResult.noConfusion h⟩

/-- C5: when all three attempts of a retried tool call fail, the call raises
the last underlying error (the spec's `GatewayUnavailable` exhaustion
failure) rather than returning a value; likewise for the raw HTTP request
loop at its default three attempts. -/
theorem callToolRetryGo_step0 {ε α : Type} (outcome : Nat → Except ε α)
    (le : Option ε) (sleeps : List Nat) :
    callToolRetryGo outcome 3 0 le sleeps =
      match outcome 0 with
      | .ok v => (.ok (some v), sleeps)
      | .error e => callToolRetryGo outcome 2 1 (some e) (sleeps ++ [2]) :=
  rfl

theorem callToolRetryGo_step1 {ε α : Type} (outcome : Nat → Except ε α)
    (le : Option ε) (sleeps : List Nat) :
    callToolRetryGo outcome 2 1 le sleeps =
      match outcome 1 with
      | .ok v => (.ok (some v), sleeps)
      | .error e => callToolRetryGo outcome 1 2 (some e) (sleeps ++ [4]) :=
  rfl

theorem callToolRetryGo_step2 {ε α : Type} (outcome : Nat → Except ε α)
    (le : Option ε) (sleeps : List Nat) :
    callToolRetryGo outcome 1 2 le sleeps =
      match outcome 2 with
      | .ok v => (.ok (some v), sleeps)
      | .error e => (.error e, sleeps ++ [6]) :=
  rfl

theorem mcpRequestGo3_step0 {ε α : Type} (rd : Nat) (outcome : Nat → Except ε α)
    (le : Option ε) (sleeps : List Nat) :
    mcpRequestGo 3 rd outcome 3 0 le sleeps =
      match outcome 0 with
      | .ok v => (.ok (some v), sleeps)
      | .error e => mcpRequestGo 3 rd outcome 2 1 (some e) (sleeps ++ [rd * 1]) :=
  rfl

theorem mcpRequestGo3_step1 {ε α : Type} (rd : Nat) (outcome : Nat → Except ε α)
    (le : Option ε) (sleeps : List Nat) :
    mcpRequestGo 3 rd outcome 2 1 le sleeps =
      match outcome 1 with
      | .ok v => (.ok (some v), sleeps)
      | .error e => mcpRequestGo 3 rd outcome 1 2 (some e) (sleeps ++ [rd * 2]) :=
  rfl

theorem mcpRequestGo3_step2 {ε α : Type} (rd : Nat) (outcome : Nat → Except ε α)
    (le : Option ε) (sleeps : List Nat) :
    mcpRequestGo 3 rd outcome 1 2 le sleeps =
      match outcome 2 with
      | .ok v => (.ok (some v), sleeps)
      | .error e => (.error e, sleeps) :=
  rfl

theorem retries_exhausted_last_error {ε α : Type} (outcome httpOutcome : Nat → Except ε α)
    (e0 e1 e2 f0 f1 f2 : ε)
    (h0 : outcome 0 = .error e0) (h1 : outcome 1 = .error e1) (h2 : outcome 2 = .error e2)
    (g0 : httpOutcome 0 = .error f0) (g1 : httpOutcome 1 = .error f1)
    (g2 : httpOutcome 2 = .error f2) :
    (callToolWithRetries outcome).1 = .error e2 ∧
    (mcpRequest 3 5 httpOutcome).1 = .error f2 := by
  constructor
  · show (callToolRetryGo outcome 3 0 none []).1 = .error e2
    rw [callToolRetryGo_step0, h0]
    dsimp only
    rw [callToolRetryGo_step1, h1]
    dsimp only
    rw [callToolRetryGo_step2, h2]
  · show (mcpRequestGo 3 5 httpOutcome 3 0 none []).1 = .error f2
    rw [mcpRequestGo3_step0, g0]
    dsimp only
    rw [mcpRequestGo3_step1, g1]
    dsimp only
    rw [mcpRequestGo3_step2, g2]

/-- C5 witness at a concrete all-failing outcome. -/
theorem retries_exhausted_last_error_witness :
    (callToolWithRetries (fun i => (.error i : Except Nat Unit))).1 = .error 2 ∧
    (mcpRequest 3 5 (fun i => (.error i : Except Nat Unit))).1 = .error 2 :=
  retries_exhausted_last_error (fun i => .error i) (fun i => .error i)
    0 1 2 0 1 2 rfl rfl rfl rfl rfl rfl

/-- C6: when the underlying invocation fails on the first two attempts and
succeeds on the third (attempt count 3), the retried call returns the third
attempt's success result, and the recorded sleeps are exactly one before the
second attempt of the base delay (2 time-units for tool calls, 5 for raw
HTTP calls) and one before the third attempt of twice the base delay — in
particular no sleep after the final, successful attempt. -/
theorem retry_two_failures_then_success {ε α : Type}
    (outcome httpOutcome : Nat → Except ε α) (e0 e1 f0 f1 : ε) (v w : α)
    (h0 : outcome 0 = .error e0) (h1 : outcome 1 = .error e1) (h2 : outcome 2 = .ok v)
    (g0 : httpOutcome 0 = .error f0) (g1 : httpOutcome 1 = .error f1)
    (g2 : httpOutcome 2 = .ok w) :
    callToolWithRetries outcome = (.ok (some v), [2, 2 * 2]) ∧
    mcpRequest 3 5 httpOutcome = (.ok (some w), [5, 5 * 2]) := by
  constructor
  · show callToolRetryGo outcome 3 0 none [] = (.ok (some v), [2, 2 * 2])
    rw [callToolRetryGo_step0, h0]
    dsimp only
    rw [callToolRetryGo_step1, h1]
    dsimp only
    rw [callToolRetryGo_step2, h2]
    dsimp only
    norm_num
  · show mcpRequestGo 3 5 httpOutcome 3 0 none [] = (.ok (some w), [5, 5 * 2])
    rw [mcpRequestGo3_step0, g0]
    dsimp only
    rw [mcpRequestGo3_step1, g1]
    dsimp only
    rw [mcpRequestGo3_step2, g2]
    dsimp only
    norm_num

/-- C6 witness at a concrete fail-fail-succeed outcome. -/
theorem retry_two_failures_then_success_witness :
    callToolWithRetries (fun i => match i with
      | 0 => (.error 0 : Except Nat Nat)
      | 1 => .error 1
      | _ => .ok 42) = (.ok (some 42), [2, 2 * 2]) ∧
    mcpRequest 3 5 (fun i => match i with
      | 0 => (.error 0 : Except Nat Nat)
      | 1 => .error 1
      | _ => .ok 42) = (.ok (some 42), [5, 5 * 2]) :=
  retry_two_failures_then_success
    (fun i => match i with
      | 0 => .error 0
      | 1 => .error 1
      | _ => .ok 42)
    (fun i => match i with
      | 0 => .error 0
      | 1 => .error 1
      | _ => .ok 42)
    0 1 0 1 42 42 rfl rfl rfl rfl rfl rfl

/-- An analysis candidate's retried call counts as unusable when it raises,
or when its normalized result is neither a mapping nor a string that
`json.loads` parses into a mapping (report_service.py lines 129-148). -/
def unusableOutcome {ε : Type} (jsonLoads : String → Option JVal) :
    Except ε ToolResult → Prop
  | .error _ => True
  | .ok r =>
    match unwrapToolResult jsonLoads r with
    | .pdict _ => False
    | .pstr s =>
      match jsonLoads s with
      | some (.obj _) => False
      | _ => True
    | _ => True

theorem analyzeTry_skip {ε : Type} (jsonLoads : String → Option JVal)
    (callTool : String → Except ε ToolResult) (params : List (String × JVal))
    (name : String) (rest : List String)
    (h : unusableOutcome jsonLoads (callTool name)) :
    analyzeTry jsonLoads callTool params (name :: rest) =
      analyzeTry jsonLoads callTool params rest := by
  cases hc : callTool name with
  | error e =>
    conv_lhs => rw [analyzeTry, hc]
  | ok r =>
    rw [hc] at h
    unfold unusableOutcome at h
    dsimp only at h
    conv_lhs => rw [analyzeTry, hc]
    dsimp only
    cases hu : unwrapToolResult jsonLoads r with
    | pdict d => rw [hu] at h; exact h.elim
    | pstr s =>
      rw [hu] at h
      dsimp only at h
      dsimp only
      cases hj : jsonLoads s with
      | none => rfl
      | some v =>
        cases v with
        | obj d => rw [hj] at h; exact h.elim
        | str t => rfl
        | num n => rfl
        | bool b => rfl
        | arr l => rfl
    | plist l => rfl
    | pnum n => rfl
    | pbool b => rfl
    | res r0 => rfl
    | dataObj o => rfl

/-- C2: when every candidate analysis tool is unusable — its retried call
raises, or its normalized result is neither a mapping nor a string parsing
to one — `_analyze_trends` returns the literal stub document: a function of
the input parameters alone (independent of the tool oracles), with the fixed
trend lists, the unavailability summary, and the caller's source toggles
echoed back.  The embedding is total: `_analyze_trends` never raises. -/
theorem analyzeTrends_stub_when_unusable {ε : Type} (jsonLoads : String → Option JVal)
    (callTool : String → Except ε ToolResult) (params : List (String × JVal))
    (h : ∀ name ∈ analyzeCandidates, unusableOutcome jsonLoads (callTool name)) :
    analyzeTrends jsonLoads callTool params = stubDoc params ∧
    dictGet (analyzeTrends jsonLoads callTool params) "top_trends" =
      some (.arr [.str "AI Agents", .str "Rust", .str "Kotlin Multiplatform"]) ∧
    dictGet (analyzeTrends jsonLoads callTool params) "growth_leaders" =
      some (.arr [.str "LangChain", .str "WebGPU", .str "Bun"]) ∧
    dictGet (analyzeTrends jsonLoads callTool params) "summary" =
      some (.str "Stub analysis due to MCP server unavailability.") ∧
    (∀ v, dictGet params "sources" = some v →
      dictGet (analyzeTrends jsonLoads callTool params) "sources" = some v) := by
  have hstub : analyzeTrends jsonLoads callTool params = stubDoc params := by
    unfold analyzeTrends analyzeCandidates
    rw [analyzeTry_skip _ _ _ _ _ (h "analyze_trends" (by simp [analyzeCandidates]))]
    rw [analyzeTry_skip _ _ _ _ _ (h "analyze" (by simp [analyzeCandidates]))]
    rw [analyzeTry_skip _ _ _ _ _ (h "trends_analyze" (by simp [analyzeCandidates]))]
    rfl
  refine ⟨hstub, ?_, ?_, ?_, ?_⟩
  · rw [hstub]; rfl
  · rw [hstub]; rfl
  · rw [hstub]; rfl
  · intro v hv
    rw [hstub]
    show some ((dictGet params "sources").getD stubSourcesDefault) = some v
    rw [hv]
    rfl

/-- C2 witness: all candidates raise; the params carry explicit source
toggles, echoed back by the stub. -/
theorem analyzeTrends_stub_when_unusable_witness :
    analyzeTrends (fun _ => none) (fun _ => (.error 0 : Except Nat ToolResult))
      [("sources", .bool true)] = stubDoc [("sources", .bool true)] ∧
    dictGet (analyzeTrends (fun _ => none) (fun _ => (.error 0 : Except Nat ToolResult))
      [("sources", .bool true)]) "top_trends" =
      some (.arr [.str "AI Agents", .str "Rust", .str "Kotlin Multiplatform"]) ∧
    dictGet (analyzeTrends (fun _ => none) (fun _ => (.error 0 : Except Nat ToolResult))
      [("sources", .bool true)]) "growth_leaders" =
      some (.arr [.str "LangChain", .str "WebGPU", .str "Bun"]) ∧
    dictGet (analyzeTrends (fun _ => none) (fun _ => (.error 0 : Except Nat ToolResult))
      [("sources", .bool true)]) "summary" =
      some (.str "Stub analysis due to MCP server unavailability.") ∧
    dictGet (analyzeTrends (fun _ => none) (fun _ => (.error 0 : Except Nat ToolResult))
      [("sources", .bool true)]) "sources" = some (.bool true) := by
  have h := analyzeTrends_stub_when_unusable (fun _ => none)
    (fun _ => (.error 0 : Except Nat ToolResult)) [("sources", .bool true)]
    (fun name _ => trivial)
  exact ⟨h.1, h.2.1, h.2.2.1, h.2.2.2.1, h.2.2.2.2 (.bool true) rfl⟩

/-- C9: `execute_scheduled_analysis` never propagates an exception to the
scheduler — the embedding is total, returning a plain outcome — and it
leaves the scheduler state (engine jobs and the per-user job table)
untouched; when any step of the try body fails, the outcome is a generic
failure notice, itself best-effort (it may silently fail too). -/
theorem execute_scheduled_total_frame {ε : Type} (env : ExecEnv ε) (s : Sched) :
    (executeScheduledAnalysis env s).2 = s ∧
    (∀ e, execBody env = .error e →
      (executeScheduledAnalysis env s).1 = .failedNotified ∨
      (executeScheduledAnalysis env s).1 = .failedSilent) := by
  unfold executeScheduledAnalysis
  cases hb : execBody env with
  | ok n => exact ⟨rfl, fun e he => Except.noConfusion he⟩
  | error e0 =>
    cases hf : env.sendFailNotice with
    | ok u => exact ⟨rfl, fun e _ => Or.inl rfl⟩
    | error e1 => exact ⟨rfl, fun e _ => Or.inr rfl⟩

/-- An all-failing job run used to witness C9. -/
def failExecEnv : ExecEnv Unit :=
  ⟨.error (), .error (), .error (), .error (), .error (), .error (), .ok ()⟩

/-- A small scheduler state used to witness C9. -/
def oneJobSched : Sched := ⟨["j1"], [], [(1, ["j1"])]⟩

/-- C9 witness: a job whose every step fails leaves the state unchanged and
ends in a notified failure. -/
theorem execute_scheduled_total_frame_witness :
    (executeScheduledAnalysis failExecEnv oneJobSched).2 = oneJobSched ∧
    ((executeScheduledAnalysis failExecEnv oneJobSched).1 = .failedNotified ∨
     (executeScheduledAnalysis failExecEnv oneJobSched).1 = .failedSilent) :=
  ⟨(execute_scheduled_total_frame failExecEnv oneJobSched).1,
   (execute_scheduled_total_frame failExecEnv oneJobSched).2 () rfl⟩

theorem not_mem_erase_self {a : String} {l : List String} (h : l.Nodup) :
    a ∉ l.erase a := by
  intro hm
  exact ((List.Nodup.mem_erase_iff h).mp hm).1 rfl

/-- C10: `remove_job` removes the id only from the underlying engine and
leaves the per-user `jobs_by_user` table unchanged; the removed id still
appears in its owner's list, and a later `pause_all` or `resume_all` for
that owner still iterates over the stale id, whose engine pause/resume
attempt now fails (and is swallowed, the iteration completing). -/
theorem removeJob_frame_stale (s : Sched) (uid : Int) (jid : String)
    (hmem : jid ∈ userJobs s uid) (hnd : s.engineJobs.Nodup) :
    (removeJob s jid).jobsByUser = s.jobsByUser ∧
    jid ∈ userJobs (removeJob s jid) uid ∧
    (jid, false) ∈ (pauseAll (removeJob s jid) uid).2 ∧
    (jid, false) ∈ (resumeAll (removeJob s jid) uid).2 := by
  have hjobs : userJobs (removeJob s jid) uid = userJobs s uid := rfl
  have hcont : (removeJob s jid).engineJobs.contains jid = false := by
    have : jid ∉ s.engineJobs.erase jid := not_mem_erase_self hnd
    simpa [removeJob] using this
  refine ⟨rfl, hjobs ▸ hmem, ?_, ?_⟩
  · show (jid, false) ∈ (userJobs (removeJob s jid) uid).map
      (fun j => (j, (removeJob s jid).engineJobs.contains j))
    rw [hjobs]
    have := List.mem_map_of_mem
      (fun j => (j, (removeJob s jid).engineJobs.contains j)) hmem
    dsimp only at this
    rwa [hcont] at this
  · show (jid, false) ∈ (userJobs (removeJob s jid) uid).map
      (fun j => (j, (removeJob s jid).engineJobs.contains j))
    rw [hjobs]
    have := List.mem_map_of_mem
      (fun j => (j, (removeJob s jid).engineJobs.contains j)) hmem
    dsimp only at this
    rwa [hcont] at this

/-- C10 witness: one user owning one engine-known job. -/
theorem removeJob_frame_stale_witness :
    (removeJob oneJobSched "j1").jobsByUser = oneJobSched.jobsByUser ∧
    "j1" ∈ userJobs (removeJob oneJobSched "j1") 1 ∧
    ("j1", false) ∈ (pauseAll (removeJob oneJobSched "j1") 1).2 ∧
    ("j1", false) ∈ (resumeAll (removeJob oneJobSched "j1") 1).2 :=
  removeJob_frame_stale oneJobSched 1 "j1"
    (by simp [userJobs, oneJobSched]) (by simp [oneJobSched])

theorem generateTry_pos_size {ε : Type} (jl : String → Option JVal) (ps : JVal → String)
    (ct : String → Except ε ToolResult) (oe : String → Bool) (gs : String → Option Nat) :
    ∀ names : List String, generateTry jl ps ct oe gs names ≠ "" →
      ∃ n, gs (generateTry jl ps ct oe gs names) = some n ∧ 0 < n := by
  intro names
  induction names with
  | nil => intro h; exact absurd rfl h
  | cons name rest ih =>
    intro h
    rw [generateTry] at h ⊢
    cases hc : ct name with
    | error e =>
      rw [hc] at h
      dsimp only at h ⊢
      exact ih h
    | ok r =>
      rw [hc] at h
      dsimp only at h ⊢
      cases hcand : candidateOf jl ps oe (unwrapToolResult jl r) with
      | none =>
        rw [hcand] at h
        dsimp only at h ⊢
        exact ih h
      | some p =>
        rw [hcand] at h
        dsimp only at h ⊢
        by_cases hp : (p == "") = true
        · rw [if_pos hp] at h ⊢
          exact ih h
        · rw [if_neg hp] at h ⊢
          cases hg : gs p with
          | none =>
            rw [hg] at h
            dsimp only at h ⊢
            exact ih h
          | some sz =>
            rw [hg] at h
            dsimp only at h ⊢
            by_cases hsz : 0 < sz
            · rw [if_pos hsz] at h ⊢
              exact ⟨sz, hg, hsz⟩
            · rw [if_neg hsz] at h ⊢
              exact ih h

theorem fallbackContent_length_pos (dumps : List (String × JVal) → String)
    (data : List (String × JVal)) (ext : String) :
    0 < (fallbackContent dumps data ext).length := by
  unfold fallbackContent
  by_cases hx : (ext == "html") = true
  · rw [if_pos hx]
    rw [String.length_append, String.length_append]
    have : 0 < ("<html><body><h1>IT Trends Report</h1><pre>" : String).length := by decide
    omega
  · rw [if_neg hx]
    rw [String.length_append]
    have : 0 < ("IT Trends Report\n\n" : String).length := by decide
    omega

/-- C1: whenever `create_report` completes (returns a path and an analysis
document), the file at that path exists with non-zero size — a locally
written fallback file with non-empty content, or a remote-generated path
vetted through `os.path.getsize` — and exactly one ReportRecord with that
path, the recorded format, the returned document and status "completed" has
been persisted; when the call raises instead, no record was written. -/
theorem create_report_artifact_record {ε : Type} (env : REnv ε) (uid : Int) (p : CParams) :
    (∀ path data, (create_report env uid p).1 = .ok (path, data) →
      ((∃ c, (path, c) ∈ (create_report env uid p).2.files ∧ 0 < c.length) ∨
       (∃ n, env.getSize path = some n ∧ 0 < n)) ∧
      (∃ fmt, (create_report env uid p).2.records =
        [⟨uid, none, path, fmt, data, "completed"⟩])) ∧
    (∀ e, (create_report env uid p).1 = .error e →
      (create_report env uid p).2.records = []) := by
  by_cases ht : (generatedPath env == "") = true
  · cases hw : env.writeRes with
    | error ew =>
      refine ⟨fun path data hok => absurd hok (by simp [create_report, ht, hw]), fun e he => ?_⟩
      simp [create_report, ht, hw]
    | ok u =>
      cases hs : env.saveRes with
      | error es =>
        refine ⟨fun path data hok => absurd hok (by simp [create_report, ht, hw, hs]),
          fun e he => ?_⟩
        simp [create_report, ht, hw, hs]
      | ok v =>
        refine ⟨fun path data hok => ?_,
          fun e he => absurd he (by simp [create_report, ht, hw, hs])⟩
        have hok' : path = fallbackPath env uid p ∧ data = analysisOf env p := by
          have : (create_report env uid p).1 =
              .ok (fallbackPath env uid p, analysisOf env p) := by
            simp [create_report, ht, hw, hs]
          rw [this] at hok
          exact ⟨(Prod.mk.injEq _ _ _ _ |>.mp (Except.ok.inj hok)).1.symm,
            (Prod.mk.injEq _ _ _ _ |>.mp (Except.ok.inj hok)).2.symm⟩
        obtain ⟨hp, hd⟩ := hok'
        subst hp
        subst hd
        constructor
        · left
          refine ⟨fallbackContent env.dumps (analysisOf env p) (fallbackExt p env.settings),
            ?_, fallbackContent_length_pos _ _ _⟩
          simp [create_report, ht, hw, hs]
        · refine ⟨fallbackExt p env.settings, ?_⟩
          simp [create_report, ht, hw, hs]
  · have hne : generatedPath env ≠ "" := by
      intro hEq
      exact ht (by simp [hEq])
    cases hs : env.saveRes with
    | error es =>
      refine ⟨fun path data hok => absurd hok (by simp [create_report, ht, hs]), fun e he => ?_⟩
      simp [create_report, ht, hs]
    | ok v =>
      refine ⟨fun path data hok => ?_,
        fun e he => absurd he (by simp [create_report, ht, hs])⟩
      have hok' : path = generatedPath env ∧ data = analysisOf env p := by
        have : (create_report env uid p).1 = .ok (generatedPath env, analysisOf env p) := by
          simp [create_report, ht, hs]
        rw [this] at hok
        exact ⟨(Prod.mk.injEq _ _ _ _ |>.mp (Except.ok.inj hok)).1.symm,
          (Prod.mk.injEq _ _ _ _ |>.mp (Except.ok.inj hok)).2.symm⟩
      obtain ⟨hp, hd⟩ := hok'
      subst hp
      subst hd
      constructor
      · right
        exact generateTry_pos_size env.jsonLoads env.pyStr env.callToolG env.osExists
          env.getSize generateCandidates hne
      · refine ⟨computedFmt p env.settings, ?_⟩
        simp [create_report, ht, hs]

/-- Settings of a fresh user (the defaults created by `get_user_settings`
have `report_format="pdf"`; here the nullable column is left empty so the
final `or "pdf"` default is exercised). -/
def failSettings : Settings := ⟨none, 7, [], true, "en"⟩

/-- An empty params mapping. -/
def failParams : CParams := ⟨none, none, none, none, none⟩

/-- An environment where every remote tool call fails and the filesystem
knows no remote path, while the local write and the persistence succeed. -/
def failREnv : REnv Unit :=
  ⟨fun _ => none, fun _ => "", fun _ => "json", fun _ => .error (), fun _ => .error (),
   fun _ => false, fun _ => none, .ok (), .ok (), failSettings, "st", 0⟩

/-- C1 witness: with every remote tool failing, the call completes with the
local fallback artifact and exactly one completed record. -/
theorem create_report_artifact_record_witness :
    ((∃ c, (fallbackPath failREnv 1 failParams, c) ∈
        (create_report failREnv 1 failParams).2.files ∧ 0 < c.length) ∨
     (∃ n, failREnv.getSize (fallbackPath failREnv 1 failParams) = some n ∧ 0 < n)) ∧
    (∃ fmt, (create_report failREnv 1 failParams).2.records =
      [⟨1, none, fallbackPath failREnv 1 failParams, fmt,
        analysisOf failREnv failParams, "completed"⟩]) :=
  (create_report_artifact_record failREnv 1 failParams).1
    (fallbackPath failREnv 1 failParams) (analysisOf failREnv failParams) rfl

/-- C3: when remote generation yields nothing and the local write and the
persistence succeed: a format resolving to "pdf" is downgraded — the file
name ends in ".txt", its content is the literal header line followed by the
JSON serialization of the analysis document, and the persisted format is
"txt", not "pdf"; a format resolving to "html" keeps "html" — the file
starts with "<html>" and embeds the JSON inside a `<pre>` block. -/
theorem create_report_fallback_format {ε : Type} (env : REnv ε) (uid : Int) (p : CParams)
    (hgen : generatedPath env = "") (hw : env.writeRes = .ok ()) (hs : env.saveRes = .ok ()) :
    (computedFmt p env.settings = "pdf" →
      (create_report env uid p).1 = .ok (fallbackPath env uid p, analysisOf env p) ∧
      (∃ pre, fallbackPath env uid p = pre ++ ".txt") ∧
      (create_report env uid p).2.files =
        [(fallbackPath env uid p, "IT Trends Report\n\n" ++ env.dumps (analysisOf env p))] ∧
      (create_report env uid p).2.records =
        [⟨uid, none, fallbackPath env uid p, "txt", analysisOf env p, "completed"⟩]) ∧
    (computedFmt p env.settings = "html" →
      (create_report env uid p).1 = .ok (fallbackPath env uid p, analysisOf env p) ∧
      (∃ pre, fallbackPath env uid p = pre ++ ".html") ∧
      (create_report env uid p).2.files =
        [(fallbackPath env uid p,
          "<html><body><h1>IT Trends Report</h1><pre>" ++ env.dumps (analysisOf env p) ++
            "</pre></body></html>")] ∧
      (∃ rest, "<html><body><h1>IT Trends Report</h1><pre>" ++ env.dumps (analysisOf env p) ++
          "</pre></body></html>" = "<html>" ++ rest) ∧
      (create_report env uid p).2.records =
        [⟨uid, none, fallbackPath env uid p, "html", analysisOf env p, "completed"⟩]) := by
  have ht : (generatedPath env == "") = true := by simp [hgen]
  constructor
  · intro hfmt
    have hext : fallbackExt p env.settings = "txt" := by
      simp only [fallbackExt, hfmt]
      decide
    refine ⟨?_, ?_, ?_, ?_⟩
    · simp [create_report, ht, hw, hs]
    · refine ⟨env.storagePath ++ "/" ++
        ("report_" ++ toString uid ++ "_" ++ toString env.now), ?_⟩
      unfold fallbackPath
      rw [hext]
      rw [show (".txt" : String) = "." ++ "txt" from rfl]
      simp [String.append_assoc]
    · simp [create_report, ht, hw, hs, hext, fallbackContent]
    · simp [create_report, ht, hw, hs, hext]
  · intro hfmt
    have hext : fallbackExt p env.settings = "html" := by
      simp only [fallbackExt, hfmt]
      decide
    refine ⟨?_, ?_, ?_, ?_, ?_⟩
    · simp [create_report, ht, hw, hs]
    · refine ⟨env.storagePath ++ "/" ++
        ("report_" ++ toString uid ++ "_" ++ toString env.now), ?_⟩
      unfold fallbackPath
      rw [hext]
      rw [show (".html" : String) = "." ++ "html" from rfl]
      simp [String.append_assoc]
    · simp [create_report, ht, hw, hs, hext, fallbackContent]
    · refine ⟨"<body><h1>IT Trends Report</h1><pre>" ++ env.dumps (analysisOf env p) ++
        "</pre></body></html>", ?_⟩
      rw [show ("<html><body><h1>IT Trends Report</h1><pre>" : String) =
        "<html>" ++ "<body><h1>IT Trends Report</h1><pre>" from rfl]
      rw [String.append_assoc "<html>" "<body><h1>IT Trends Report</h1><pre>"
        (env.dumps (analysisOf env p))]
      rw [String.append_assoc "<html>"
        ("<body><h1>IT Trends Report</h1><pre>" ++ env.dumps (analysisOf env p))
        "</pre></body></html>"]
    · simp [create_report, ht, hw, hs, hext]

/-- C3 witness: the all-failing environment resolves the format to the
default "pdf" and produces the txt fallback. -/
theorem create_report_fallback_format_witness :
    (create_report failREnv 1 failParams).1 =
      .ok (fallbackPath failREnv 1 failParams, analysisOf failREnv failParams) ∧
    (∃ pre, fallbackPath failREnv 1 failParams = pre ++ ".txt") ∧
    (create_report failREnv 1 failParams).2.files =
      [(fallbackPath failREnv 1 failParams,
        "IT Trends Report\n\n" ++ failREnv.dumps (analysisOf failREnv failParams))] ∧
    (create_report failREnv 1 failParams).2.records =
      [⟨1, none, fallbackPath failREnv 1 failParams, "txt",
        analysisOf failREnv failParams, "completed"⟩] :=
  (create_report_fallback_format failREnv 1 failParams rfl rfl rfl).1 rfl

/-- C4: once an artifact was produced (a usable remote path, or a successful
local fallback write), `create_report` raises exactly when `save_report`
raises — it propagates that same persistence error and returns no path —
and completes exactly when `save_report` succeeds. -/
theorem create_report_save_failure_propagates {ε : Type} (env : REnv ε) (uid : Int)
    (p : CParams) (hart : generatedPath env ≠ "" ∨ env.writeRes = .ok ()) :
    (∀ e, env.saveRes = .error e → (create_report env uid p).1 = .error e) ∧
    (env.saveRes = .ok () → ∃ pd, (create_report env uid p).1 = .ok pd) := by
  by_cases ht : (generatedPath env == "") = true
  · have hw : env.writeRes = .ok () := by
      cases hart with
      | inl h => exact absurd (by simpa using ht) h
      | inr h => exact h
    constructor
    · intro e hs
      simp [create_report, ht, hw, hs]
    · intro hs
      exact ⟨(fallbackPath env uid p, analysisOf env p), by simp [create_report, ht, hw, hs]⟩
  · constructor
    · intro e hs
      simp [create_report, ht, hs]
    · intro hs
      exact ⟨(generatedPath env, analysisOf env p), by simp [create_report, ht, hs]⟩

/-- An environment whose artifact write succeeds but whose `save_report`
raises error 5. -/
def saveFailREnv : REnv Nat :=
  ⟨fun _ => none, fun _ => "", fun _ => "json", fun _ => .error 0, fun _ => .error 0,
   fun _ => false, fun _ => none, .ok (), .error 5, failSettings, "st", 0⟩

/-- C4 witness: the persistence failure is propagated as-is. -/
theorem create_report_save_failure_propagates_witness :
    (create_report saveFailREnv 1 failParams).1 = .error 5 :=
  (create_report_save_failure_propagates saveFailREnv 1 failParams (Or.inr rfl)).1 5 rfl
